import Mathlib

/-!
Verification development for the covid-19 data cleaning pipeline
(covid_project/data_cleaning.py).

Dataframes are embedded as lists of row structures.  Calendar dates are
embedded as day numbers (days since 1970-01-01, type Int); the function
toDayNumber converts a civil date to its day number.  Raw dates of the
case table are modelled as already-parsed day numbers (the source compares
ISO-formatted date strings, whose lexicographic order coincides with
chronological order, and then parses them).  Raw dates of the policy table
are modelled as strings, because the source repairs mis-encoded date
strings before parsing them.  Floating point columns are modelled as
rational numbers.
-/

/-- Day number (days since 1970-01-01) of a civil calendar date.
Standard civil-from-days algorithm; all divisions are on nonnegative
operands for the dates handled here. -/
def toDayNumber (y m d : Int) : Int :=
  let y2 : Int := if m ≤ 2 then y - 1 else y
  let era : Int := (if 0 ≤ y2 then y2 else y2 - 399) / 400
  let yoe : Int := y2 - era * 400
  let mp : Int := (m + 9) % 12
  let doy : Int := (153 * mp + 2) / 5 + d - 1
  let doe : Int := yoe * 365 + yoe / 4 - yoe / 100 + doy
  era * 146097 + doe - 719468

/-- Source line 201: max_date = "2021-12-31" (rows on/after it are dropped,
the filter keeps date < max_date). -/
def maxDateCovid : Int := toDayNumber 2021 12 31

/-- Source line 268: the seed cutoff date 2020-01-30 used by the rolling
average mask step. -/
def seedCutoff : Int := toDayNumber 2020 1 30

/-- Lowercasing of a string, the pandas str.lower of the source, modelled
per character (the relevant values are ASCII). -/
def strToLower (s : String) : String := String.mk (s.data.map Char.toLower)

/-- Boolean suffix test on strings, modelled on the character lists. -/
def strEndsWith (s suf : String) : Bool := suf.data.isSuffixOf s.data

/-- Drop the last n characters of a string. -/
def strDropRight (s : String) (n : Nat) : String :=
  String.mk (s.data.take (s.data.length - n))

/-- Raw case/death row, with the source columns used by clean_covid_data.
Nullable numeric columns are Options.  total_population is modelled as
non-null (a kept row with a null population would make the astype cast of
the source raise, which no claim exercises). -/
structure RawCovidRow where
  date : Int
  location_type : String
  fips_code : Int
  location_name : String
  state : String
  total_population : Int
  new_cases : Option Int
  new_deaths : Option Int
  new_cases_1e6 : Option Rat
  new_deaths_1e6 : Option Rat
  new_cases_7day : Option Rat
  new_deaths_7day : Option Rat
deriving DecidableEq

/-- Working row of clean_covid_data after renaming, county lowercasing,
full_loc_name derivation and the null fills of source lines 204-262.
The 7 day averages are still nullable at this stage. -/
structure MidRow where
  fips_code : Int
  county : String
  state : String
  full_loc_name : String
  date : Int
  total_population : Int
  new_cases : Int
  new_deaths : Int
  new_cases_1e6 : Rat
  new_deaths_1e6 : Rat
  new_cases_7day : Option Rat
  new_deaths_7day : Option Rat
deriving DecidableEq

/-- Cleaned case/death row produced by clean_covid_data. -/
structure CleanCovidRow where
  fips_code : Int
  county : String
  state : String
  full_loc_name : String
  date : Int
  total_population : Int
  new_cases : Int
  new_deaths : Int
  new_cases_1e6 : Rat
  new_deaths_1e6 : Rat
  new_cases_7day : Rat
  new_deaths_7day : Rat
  new_cases_7day_1e6 : Rat
  new_deaths_7day_1e6 : Rat
deriving DecidableEq

/-- Per-row field normalization of clean_covid_data, source lines 204-262:
column renames, county lowercasing, full_loc_name derivation, zero fill of
null new_cases and new_deaths, and clip-then-fill of the per-100k columns. -/
def toMid (r : RawCovidRow) : MidRow :=
  { fips_code := r.fips_code
    county := strToLower r.location_name
    state := r.state
    full_loc_name := strToLower r.location_name ++ ", " ++ r.state
    date := r.date
    total_population := r.total_population
    new_cases := r.new_cases.getD 0
    new_deaths := r.new_deaths.getD 0
    new_cases_1e6 := (r.new_cases_1e6.map (fun x => max x 0)).getD 0
    new_deaths_1e6 := (r.new_deaths_1e6.map (fun x => max x 0)).getD 0
    new_cases_7day := r.new_cases_7day
    new_deaths_7day := r.new_deaths_7day }

/-- Population overrides of source lines 237-244: the two Alaska census
areas with hard-coded 2020 census populations. -/
def popOverrideRow (r : MidRow) : MidRow :=
  if r.county = "chugach" ∧ r.state = "Alaska" then
    { r with total_population := 7102 }
  else if r.county = "copper river" ∧ r.state = "Alaska" then
    { r with total_population := 2617 }
  else r

/-- The case table after the row-level cleaning steps of source lines
200-262: date bound, county-only filter, renames and normalization, drop
of Puerto Rico and the District of Columbia, population overrides. -/
def midTable (raw : List RawCovidRow) : List MidRow :=
  ((((raw.filter (fun r => decide (r.date < maxDateCovid))).filter
      (fun r => decide (r.location_type = "county"))).map toMid).filter
      (fun r => decide (¬(r.state = "Puerto Rico" ∨ r.state = "District of Columbia")))).map
    popOverrideRow

/-- Seed-period mask of source lines 264-270: for rows dated before the
seed cutoff, null 7 day averages become 0 and non-null ones are kept;
rows on/after the cutoff are untouched. -/
def maskSeed (r : MidRow) : MidRow :=
  if r.date < seedCutoff then
    { r with
      new_cases_7day := some (r.new_cases_7day.getD 0)
      new_deaths_7day := some (r.new_deaths_7day.getD 0) }
  else r

/-- The case table at the start of the rolling-average recomputation loops
(source line 272): midTable with the seed mask applied. -/
def seedMasked (raw : List RawCovidRow) : List MidRow :=
  (midTable raw).map maskSeed

/-- Windowed sum of source lines 284-299: sum of new_cases over the rows of
the table with the same full_loc_name and date in (r.date - 7, r.date]. -/
def windowCaseSum (t : List MidRow) (r : MidRow) : Int :=
  (t.map (fun x =>
    if x.full_loc_name = r.full_loc_name ∧ r.date - 7 < x.date ∧ x.date ≤ r.date then
      x.new_cases
    else 0)).sum

/-- Windowed sum of source lines 307-322, the deaths analogue. -/
def windowDeathSum (t : List MidRow) (r : MidRow) : Int :=
  (t.map (fun x =>
    if x.full_loc_name = r.full_loc_name ∧ r.date - 7 < x.date ∧ x.date ≤ r.date then
      x.new_deaths
    else 0)).sum

/-- Recomputed new_cases_7day value for one row: rows with a stored average
keep it, rows with a null average get the windowed sum divided by 7
(source lines 279-299).  The loops of the source only write the 7 day
columns and only read the untouched new_cases / new_deaths columns, so the
result for each row is independent of the processing order. -/
def fillCase (t : List MidRow) (r : MidRow) : Rat :=
  match r.new_cases_7day with
  | some v => v
  | none => (windowCaseSum t r : Rat) / 7

/-- Recomputed new_deaths_7day value for one row (source lines 301-322). -/
def fillDeath (t : List MidRow) (r : MidRow) : Rat :=
  match r.new_deaths_7day with
  | some v => v
  | none => (windowDeathSum t r : Rat) / 7

/-- Final row assembly: recomputed 7 day averages and the per-100k
normalization of source lines 324-326. -/
def finalizeRow (t : List MidRow) (r : MidRow) : CleanCovidRow :=
  { fips_code := r.fips_code
    county := r.county
    state := r.state
    full_loc_name := r.full_loc_name
    date := r.date
    total_population := r.total_population
    new_cases := r.new_cases
    new_deaths := r.new_deaths
    new_cases_1e6 := r.new_cases_1e6
    new_deaths_1e6 := r.new_deaths_1e6
    new_cases_7day := fillCase t r
    new_deaths_7day := fillDeath t r
    new_cases_7day_1e6 := fillCase t r / ((r.total_population : Rat) / 100000)
    new_deaths_7day_1e6 := fillDeath t r / ((r.total_population : Rat) / 100000) }

/-- The cleaning computation of clean_covid_data on raw rows
(source lines 200-331). -/
def clean_covid_data (raw : List RawCovidRow) : List CleanCovidRow :=
  (seedMasked raw).map (finalizeRow (seedMasked raw))

/-- One entry of the static US state reference table: postal
abbreviation, full name, 2-digit state FIPS code.
Modelled from the spec: the source resolves these via the external us
package (us.states.STATES, us.states.mapping, us.states.lookup), a static
external resource the spec describes as the standard table of the 50
states with postal codes, names and FIPS codes. -/
structure USState where
  abbr : String
  name : String
  fips : Int
deriving DecidableEq

/-- Modelled from the spec: the static reference table of the 50 US states
(postal code, full name, state FIPS), the external resource behind the us
package used at source lines 362-364 and 396-404. -/
def usStateTable : List USState :=
  [⟨"AL", "Alabama", 1⟩, ⟨"AK", "Alaska", 2⟩, ⟨"AZ", "Arizona", 4⟩,
   ⟨"AR", "Arkansas", 5⟩, ⟨"CA", "California", 6⟩, ⟨"CO", "Colorado", 8⟩,
   ⟨"CT", "Connecticut", 9⟩, ⟨"DE", "Delaware", 10⟩, ⟨"FL", "Florida", 12⟩,
   ⟨"GA", "Georgia", 13⟩, ⟨"HI", "Hawaii", 15⟩, ⟨"ID", "Idaho", 16⟩,
   ⟨"IL", "Illinois", 17⟩, ⟨"IN", "Indiana", 18⟩, ⟨"IA", "Iowa", 19⟩,
   ⟨"KS", "Kansas", 20⟩, ⟨"KY", "Kentucky", 21⟩, ⟨"LA", "Louisiana", 22⟩,
   ⟨"ME", "Maine", 23⟩, ⟨"MD", "Maryland", 24⟩, ⟨"MA", "Massachusetts", 25⟩,
   ⟨"MI", "Michigan", 26⟩, ⟨"MN", "Minnesota", 27⟩, ⟨"MS", "Mississippi", 28⟩,
   ⟨"MO", "Missouri", 29⟩, ⟨"MT", "Montana", 30⟩, ⟨"NE", "Nebraska", 31⟩,
   ⟨"NV", "Nevada", 32⟩, ⟨"NH", "New Hampshire", 33⟩, ⟨"NJ", "New Jersey", 34⟩,
   ⟨"NM", "New Mexico", 35⟩, ⟨"NY", "New York", 36⟩, ⟨"NC", "North Carolina", 37⟩,
   ⟨"ND", "North Dakota", 38⟩, ⟨"OH", "Ohio", 39⟩, ⟨"OK", "Oklahoma", 40⟩,
   ⟨"OR", "Oregon", 41⟩, ⟨"PA", "Pennsylvania", 42⟩, ⟨"RI", "Rhode Island", 44⟩,
   ⟨"SC", "South Carolina", 45⟩, ⟨"SD", "South Dakota", 46⟩, ⟨"TN", "Tennessee", 47⟩,
   ⟨"TX", "Texas", 48⟩, ⟨"UT", "Utah", 49⟩, ⟨"VT", "Vermont", 50⟩,
   ⟨"VA", "Virginia", 51⟩, ⟨"WA", "Washington", 53⟩, ⟨"WV", "West Virginia", 54⟩,
   ⟨"WI", "Wisconsin", 55⟩, ⟨"WY", "Wyoming", 56⟩]

/-- The 50 state postal abbreviations (source line 362). -/
def stateAbbrs : List String := usStateTable.map USState.abbr

/-- Cell-level effect of the whole-dataframe replace of source line 364:
a cell whose entire value is a state postal abbreviation becomes the full
state name, any other cell is unchanged. -/
def replaceCell (s : String) : String :=
  match usStateTable.find? (fun e => decide (e.abbr = s)) with
  | some e => e.name
  | none => s

/-- Full state name to state FIPS lookup (source lines 396-403, which go
name to abbreviation to state record to fips via the us package). -/
def nameToFips (s : String) : Option Int :=
  (usStateTable.find? (fun e => decide (e.name = s))).map USState.fips

/-- Raw policy row with the source columns of the policy dataset. -/
structure RawPolicyRow where
  state_id : String
  county : Option String
  fips_code : Option Int
  policy_level : String
  date : String
  policy_type : String
  start_stop : String
  geocoded_state : Option String
  comments : Option String
  source : Option String
  total_phases : Option Int
deriving DecidableEq

/-- Policy row after the column drop of source line 357. -/
structure PolicyColsRow where
  state_id : String
  county : Option String
  fips_code : Option Int
  policy_level : String
  date : String
  policy_type : String
  start_stop : String
deriving DecidableEq

/-- Policy row after state normalization and county normalization
(source lines 362-383): state holds the full name, county is total with
the statewide sentinel. -/
structure PolicyMidRow where
  state : String
  county : String
  fips_code : Option Int
  policy_level : String
  date : String
  policy_type : String
  start_stop : String
deriving DecidableEq

/-- Cleaned policy row produced by clean_policy_data. -/
structure PolicyRow where
  state : String
  county : String
  fips_code : Int
  policy_level : String
  date : Int
  policy_type : String
  start_stop : String
deriving DecidableEq

/-- Errors of the policy pipeline: the geography mismatch assertion of
source lines 391-393 (carrying the list of offending county names), a
null fips code surviving to the astype cast of source line 404, an
unparseable date string at source line 410, and the empty-series min/max
of source line 411. -/
inductive PolicyError where
  | dataIntegrityError (mismatches : List String)
  | missingFips
  | badDateFormat
  | emptyTimeseries
deriving DecidableEq

/-- Decidable equality of Except results, for evaluating the pipeline on
concrete inputs. -/
instance exceptDecEq {A B : Type} [DecidableEq A] [DecidableEq B] : DecidableEq (Except A B)
  | .error x, .error y =>
    match decEq x y with
    | isTrue h => isTrue (h ▸ rfl)
    | isFalse h => isFalse (fun hc => h ((Except.error.injEq _ _).mp hc))
  | .error _, .ok _ => isFalse (fun hc => Except.noConfusion hc)
  | .ok _, .error _ => isFalse (fun hc => Except.noConfusion hc)
  | .ok x, .ok y =>
    match decEq x y with
    | isTrue h => isTrue (h ▸ rfl)
    | isFalse h => isFalse (fun hc => h ((Except.ok.injEq _ _).mp hc))

/-- Column drop of source line 357. -/
def dropCols (r : RawPolicyRow) : PolicyColsRow :=
  { state_id := r.state_id
    county := r.county
    fips_code := r.fips_code
    policy_level := r.policy_level
    date := r.date
    policy_type := r.policy_type
    start_stop := r.start_stop }

/-- Whole-dataframe replace of source line 364 applied to one row: every
string cell goes through replaceCell; the numeric fips cell and a null
county cell are unaffected. -/
def replaceAllCells (r : PolicyColsRow) : PolicyColsRow :=
  { state_id := replaceCell r.state_id
    county := r.county.map replaceCell
    fips_code := r.fips_code
    policy_level := replaceCell r.policy_level
    date := replaceCell r.date
    policy_type := replaceCell r.policy_type
    start_stop := replaceCell r.start_stop }

/-- One suffix-stripping regex replace of source lines 375-383: if the
string ends with the suffix, drop it, else leave the string unchanged. -/
def stripEnd (suf : String) (s : String) : String :=
  if strEndsWith s suf then strDropRight s suf.length else s

/-- County normalization of source lines 372-383: lowercase, then strip
the suffixes " county", " municipality", " city", " borough", applied in
that order, each at most once at the end of the string. -/
def normalizeCounty (s : String) : String :=
  stripEnd " borough" (stripEnd " city" (stripEnd " municipality" (stripEnd " county" (strToLower s))))

/-- County step of source lines 369-383: null county becomes the
statewide sentinel, then normalizeCounty. -/
def countyStep (r : PolicyColsRow) : PolicyMidRow :=
  { state := r.state_id
    county := normalizeCounty (r.county.getD "statewide")
    fips_code := r.fips_code
    policy_level := r.policy_level
    date := r.date
    policy_type := r.policy_type
    start_stop := r.start_stop }

/-- Policy table after column drop, state filter and replace, and county
normalization (source lines 357-383). -/
def policyStage1 (raw : List RawPolicyRow) : List PolicyMidRow :=
  (((raw.map dropCols).filter (fun r => decide (r.state_id ∈ stateAbbrs))).map
    replaceAllCells).map countyStep

/-- First-occurrence deduplication, the unique() of source line 388. -/
def dedupFirst (seen : List String) : List String → List String
  | [] => []
  | x :: xs => if x ∈ seen then dedupFirst seen xs else x :: dedupFirst (x :: seen) xs

/-- Geography mismatch list of source lines 385-390: the distinct
non-statewide county values of the policy table that do not occur in the
county column of the cleaned case table. -/
def policyMismatches (t : List PolicyMidRow) (ts : List CleanCovidRow) : List String :=
  (dedupFirst [] ((t.map PolicyMidRow.county).filter (fun c => decide (c ≠ "statewide")))).filter
    (fun c => decide (c ∉ ts.map CleanCovidRow.county))

/-- FIPS assignment of source lines 396-403: state-level rows get the
state FIPS looked up from the state name; county-level rows keep the
provided fips. -/
def assignFips (r : PolicyMidRow) : PolicyMidRow :=
  if r.policy_level = "state" then { r with fips_code := nameToFips r.state } else r

/-- Policy row with a resolved integer fips (after the astype cast of
source line 404). -/
structure PolicyFipsRow where
  state : String
  county : String
  fips_code : Int
  policy_level : String
  date : String
  policy_type : String
  start_stop : String
deriving DecidableEq

/-- The astype cast of source line 404: every fips must be non-null by
now, a remaining null raises. -/
def resolveFips : List PolicyMidRow → Except PolicyError (List PolicyFipsRow)
  | [] => .ok []
  | r :: rs =>
    match r.fips_code with
    | none => .error .missingFips
    | some f =>
      match resolveFips rs with
      | .error e => .error e
      | .ok rest =>
        .ok ({ state := r.state, county := r.county, fips_code := f,
               policy_level := r.policy_level, date := r.date,
               policy_type := r.policy_type, start_stop := r.start_stop } :: rest)

/-- Substring test on character lists, the pandas str.contains of source
line 407 (the pattern has no regex metacharacters, so it is a plain
substring test). -/
def containsSub (pat : List Char) : List Char → Bool
  | [] => pat.isEmpty
  | c :: cs => pat.isPrefixOf (c :: cs) || containsSub pat cs

/-- Date typo repair of source lines 407-408: if the raw date string
contains "0020" anywhere, its first four characters are replaced by
"2020"; otherwise it is unchanged.  Python string slicing is mirrored on
the character list. -/
def repairDate (s : String) : String :=
  if containsSub "0020".data s.data then String.mk ("2020".data ++ s.data.drop 4)
  else s

/-- Split a character list at the dash separators. -/
def splitOnDash : List Char → List (List Char)
  | [] => [[]]
  | c :: cs =>
    match splitOnDash cs with
    | [] => [[c]]
    | h :: t => if c = '-' then [] :: h :: t else (c :: h) :: t

/-- Numeric value of a nonempty list of decimal digit characters. -/
def digitsToNat (l : List Char) : Option Nat :=
  if l.isEmpty || !l.all Char.isDigit then none
  else some (l.foldl (fun n c => 10 * n + (c.toNat - 48)) 0)

/-- ISO date parsing of source line 410, to a day number. -/
def parsePolicyDate (s : String) : Option Int :=
  match splitOnDash s.data with
  | [y, m, d] =>
    match digitsToNat y, digitsToNat m, digitsToNat d with
    | some yn, some mn, some dn =>
      if 1 ≤ mn ∧ mn ≤ 12 ∧ 1 ≤ dn ∧ dn ≤ 31 then
        some (toDayNumber (yn : Int) (mn : Int) (dn : Int))
      else none
    | _, _, _ => none
  | _ => none

/-- Repair and parse all date strings (source lines 407-410); an
unparseable date raises. -/
def parseDates : List PolicyFipsRow → Except PolicyError (List PolicyRow)
  | [] => .ok []
  | r :: rs =>
    match parsePolicyDate (repairDate r.date) with
    | none => .error .badDateFormat
    | some d =>
      match parseDates rs with
      | .error e => .error e
      | .ok rest =>
        .ok ({ state := r.state, county := r.county, fips_code := r.fips_code,
               policy_level := r.policy_level, date := d,
               policy_type := r.policy_type, start_stop := r.start_stop } :: rest)

/-- Exact-match policy name replacement table of source lines 414-424. -/
def policyReplacements : List (String × String) :=
  [("Stop Initiation Of Evictions Overall Or Due To Covid Related Issues",
    "Stop Initiation Of Evictions"),
   ("Modify Medicaid Requirements With 1135 Waivers Date Of CMS Approval",
    "Modify Medicaid Requirements"),
   ("Stop Enforcement Of Evictions Overall Or Due To Covid Related Issues",
    "Stop Enforcement Of Evictions"),
   ("Mandate Face Mask Use By All Individuals In Public Facing Businesses",
    "Mandate Face Masks In Businesses"),
   ("Mandate Face Mask Use By All Individuals In Public Spaces",
    "Mandate Face Masks In Public Spaces"),
   ("Reopened ACA Enrollment Using a Special Enrollment Period",
    "ACA Special Enrollment Period"),
   ("Suspended Elective Medical Dental Procedures",
    "Suspend Elective Dental Procedures"),
   ("Allow Expand Medicaid Telehealth Coverage",
    "Expand Medicaid Telehealth Coverage"),
   ("Renter Grace Period Or Use Of Security Deposit To Pay Rent",
    "Grace Period / Security Deposit for Rent")]

/-- One policy_type cell after the exact-match replaces of source lines
426-429 (the replacement keys are pairwise distinct and no value is a
key, so the sequential replaces are a single lookup) and the lowercase of
source line 431. -/
def normalizePolicyName (s : String) : String :=
  strToLower
    (match policyReplacements.find? (fun p : String × String => decide (p.1 = s)) with
     | some p => p.2
     | none => s)

/-- The generic phase placeholders dropped at source lines 432-433. -/
def phasePlaceholders : List String :=
  ["phase 1", "phase 2", "phase 3", "phase 4", "phase 5", "new phase"]

/-- Steps of clean_policy_data after the geography assertion has passed
(source lines 396-438): fips assignment and cast, date repair, parse and
range filter, policy name normalization and phase drop. -/
def policyStage2 (t1 : List PolicyMidRow) (ts : List CleanCovidRow) :
    Except PolicyError (List PolicyRow) :=
  match resolveFips (t1.map assignFips) with
  | .error e => .error e
  | .ok t2 =>
    match parseDates t2 with
    | .error e => .error e
    | .ok t3 =>
      match (ts.map CleanCovidRow.date).min?, (ts.map CleanCovidRow.date).max? with
      | some lo, some hi =>
        let t4 := t3.filter (fun r => decide (¬(r.date < lo ∨ hi < r.date)))
        let t5 := t4.map (fun r => { r with policy_type := normalizePolicyName r.policy_type })
        .ok (t5.filter (fun r => decide (r.policy_type ∉ phasePlaceholders)))
      | _, _ => .error .emptyTimeseries

/-- The cleaning computation of clean_policy_data on raw policy rows,
given the cleaned case table as the geography reference (source lines
356-438; the source obtains the case table from its cache through
clean_covid_data with df=None). -/
def clean_policy_data (raw : List RawPolicyRow) (ts : List CleanCovidRow) :
    Except PolicyError (List PolicyRow) :=
  if policyMismatches (policyStage1 raw) ts = [] then policyStage2 (policyStage1 raw) ts
  else .error (.dataIntegrityError (policyMismatches (policyStage1 raw) ts))


/-- Cache-aware entry point of clean_covid_data (source lines 179-198 and
328-331), with the on-disk state passed explicitly: rawSource stands for
the raw data returned by load_covid_data, cache for the contents of the
cleaned csv (none when the file does not exist).  Returns the produced
table and the new cache contents. -/
def clean_covid_data_cached (rawSource : List RawCovidRow)
    (df : Option (List RawCovidRow)) (cache : Option (List CleanCovidRow))
    (force_reclean : Bool) : List CleanCovidRow × Option (List CleanCovidRow) :=
  match df with
  | some d =>
    let out := clean_covid_data d
    (out, some out)
  | none =>
    match cache with
    | some c => if force_reclean then
        let out := clean_covid_data rawSource
        (out, some out)
      else (c, some c)
    | none =>
      let out := clean_covid_data rawSource
      (out, some out)

/-- Cache-aware entry point of clean_policy_data (source lines 334-354 and
435-438), with the on-disk state passed explicitly; ts is the cleaned
case table the source reads through clean_covid_data with df=None.  On an
error the source raises before the csv write, so the cache is unchanged. -/
def clean_policy_data_cached (rawSource : List RawPolicyRow) (ts : List CleanCovidRow)
    (df : Option (List RawPolicyRow)) (cache : Option (List PolicyRow))
    (force_reclean : Bool) : Except PolicyError (List PolicyRow) × Option (List PolicyRow) :=
  match df with
  | some d =>
    match clean_policy_data d ts with
    | .ok out => (.ok out, some out)
    | .error e => (.error e, cache)
  | none =>
    match cache with
    | some c => if force_reclean then
        match clean_policy_data rawSource ts with
        | .ok out => (.ok out, some out)
        | .error e => (.error e, cache)
      else (.ok c, some c)
    | none =>
      match clean_policy_data rawSource ts with
      | .ok out => (.ok out, some out)
      | .error e => (.error e, cache)

/-- Spec-worded rolling average for cases: sum of new_cases over exactly
the rows of the table with the same full_loc_name and date in the
inclusive-exclusive window (r.date - 7, r.date], divided by 7. -/
def claimCaseAvg (t : List MidRow) (r : MidRow) : Rat :=
  (((t.filter (fun x =>
      decide (x.full_loc_name = r.full_loc_name ∧ r.date - 7 < x.date ∧ x.date ≤ r.date))).map
    (fun x => (x.new_cases : Rat))).sum) / 7

/-- Spec-worded rolling average for deaths, the analogue of claimCaseAvg. -/
def claimDeathAvg (t : List MidRow) (r : MidRow) : Rat :=
  (((t.filter (fun x =>
      decide (x.full_loc_name = r.full_loc_name ∧ r.date - 7 < x.date ∧ x.date ≤ r.date))).map
    (fun x => (x.new_deaths : Rat))).sum) / 7

/-- Key pair of a raw case row. -/
def rawKey (r : RawCovidRow) : Int × Int := (r.fips_code, r.date)

/-- Key pair of a cleaned case row. -/
def cleanKey (r : CleanCovidRow) : Int × Int := (r.fips_code, r.date)

/-- Synthetic raw case table: one Texas county with a stored 7 day average
on day 18350 and a null one on day 18353 (after the seed cutoff). -/
def rawC1 : List RawCovidRow :=
  [{ date := 18350, location_type := "county", fips_code := 48001,
     location_name := "Anderson", state := "Texas", total_population := 57000,
     new_cases := some 7, new_deaths := some 0, new_cases_1e6 := some 1,
     new_deaths_1e6 := some 0, new_cases_7day := some 1, new_deaths_7day := some 1 },
   { date := 18353, location_type := "county", fips_code := 48001,
     location_name := "Anderson", state := "Texas", total_population := 57000,
     new_cases := some 14, new_deaths := some 7, new_cases_1e6 := some 2,
     new_deaths_1e6 := some 1, new_cases_7day := none, new_deaths_7day := none }]

/-- The working row of rawC1 whose 7 day averages are null at the start of
the recomputation loops. -/
def rowC1 : MidRow :=
  { fips_code := 48001, county := "anderson", state := "Texas",
    full_loc_name := "anderson, Texas", date := 18353, total_population := 57000,
    new_cases := 14, new_deaths := 7, new_cases_1e6 := 2, new_deaths_1e6 := 1,
    new_cases_7day := none, new_deaths_7day := none }

/-- Synthetic raw case table with one row dated before the seed cutoff,
with a null cases average and a stored deaths average. -/
def rawC4 : List RawCovidRow :=
  [{ date := 18280, location_type := "county", fips_code := 30031,
     location_name := "Gallatin", state := "Montana", total_population := 100000,
     new_cases := some 3, new_deaths := some 1, new_cases_1e6 := some 3,
     new_deaths_1e6 := some 1, new_cases_7day := none, new_deaths_7day := some 2 }]

/-- The working row of rawC4 before the seed mask. -/
def rowC4 : MidRow :=
  { fips_code := 30031, county := "gallatin", state := "Montana",
    full_loc_name := "gallatin, Montana", date := 18280, total_population := 100000,
    new_cases := 3, new_deaths := 1, new_cases_1e6 := 3, new_deaths_1e6 := 1,
    new_cases_7day := none, new_deaths_7day := some 2 }

/-- Synthetic raw case table whose two rows are identical, hence share the
(fips_code, date) pair. -/
def rawDupC5 : List RawCovidRow :=
  [{ date := 18300, location_type := "county", fips_code := 2063,
     location_name := "Chugach", state := "Alaska", total_population := 99,
     new_cases := some 1, new_deaths := some 0, new_cases_1e6 := some 1,
     new_deaths_1e6 := some 0, new_cases_7day := some 2, new_deaths_7day := some 0 },
   { date := 18300, location_type := "county", fips_code := 2063,
     location_name := "Chugach", state := "Alaska", total_population := 99,
     new_cases := some 1, new_deaths := some 0, new_cases_1e6 := some 1,
     new_deaths_1e6 := some 0, new_cases_7day := some 2, new_deaths_7day := some 0 }]

/-- Synthetic cleaned case table used as the geography reference of the
policy claims: a single row for the county orange of California. -/
def tsC : List CleanCovidRow :=
  [{ fips_code := 6059, county := "orange", state := "California",
     full_loc_name := "orange, California", date := 18353,
     total_population := 3000000, new_cases := 10, new_deaths := 1,
     new_cases_1e6 := 1, new_deaths_1e6 := 1, new_cases_7day := 5,
     new_deaths_7day := 1, new_cases_7day_1e6 := 1, new_deaths_7day_1e6 := 1 }]

/-- Synthetic raw policy table: a county-level Florida row for the county
Orange County; the full location name orange, Florida does not occur in
tsC, whose only full location name is orange, California. -/
def rawPolicyC2 : List RawPolicyRow :=
  [{ state_id := "FL", county := some "Orange County", fips_code := some 12095,
     policy_level := "county", date := "2020-04-01", policy_type := "Mask Mandate",
     start_stop := "start", geocoded_state := none, comments := none,
     source := none, total_phases := none }]

/-- Synthetic raw policy table with a county that is absent from tsC. -/
def rawPolicyC3 : List RawPolicyRow :=
  [{ state_id := "CA", county := some "Foo County", fips_code := some 6001,
     policy_level := "county", date := "2020-04-01", policy_type := "Mask Mandate",
     start_stop := "start", geocoded_state := none, comments := none,
     source := none, total_phases := none }]



section HelperLemmas

/-- A list is a Boolean prefix of itself followed by anything. -/
lemma isPrefixOf_append (l1 l2 : List Char) : l1.isPrefixOf (l1 ++ l2) = true := by
  induction l1 with
  | nil => cases l2 <;> rfl
  | cons c cs ih => simp [List.isPrefixOf, ih]

/-- containsSub finds a pattern standing at the front of the list. -/
lemma containsSub_of_prefix (pat rest : List Char) :
    containsSub pat (pat ++ rest) = true := by
  cases pat with
  | nil => cases rest <;> simp [containsSub, List.isEmpty, List.isPrefixOf]
  | cons c cs =>
    show ((c :: cs).isPrefixOf (c :: (cs ++ rest)) || containsSub (c :: cs) (cs ++ rest)) = true
    have h : (c :: cs).isPrefixOf (c :: (cs ++ rest)) = true := isPrefixOf_append (c :: cs) rest
    rw [h]
    rfl

/-- Sum of an if-then-else map equals the sum of the mapped filter. -/
lemma sum_ite_eq_sum_filter (t : List MidRow) (p : MidRow → Prop) [DecidablePred p]
    (f : MidRow → Int) :
    (t.map (fun x => if p x then f x else 0)).sum
      = ((t.filter (fun x => decide (p x))).map f).sum := by
  induction t with
  | nil => rfl
  | cons a t ih =>
    by_cases h : p a <;> simp [List.filter_cons, h, ih]

/-- Casting an integer list sum to the rationals maps the cast inside. -/
lemma cast_sum_map (t : List MidRow) (f : MidRow → Int) :
    (((t.map f).sum : Int) : Rat) = (t.map (fun x => ((f x : Int) : Rat))).sum := by
  induction t with
  | nil => simp
  | cons a t ih =>
    rw [List.map_cons, List.sum_cons, List.map_cons, List.sum_cons, Int.cast_add, ih]

/-- The source windowed sum for cases, cast to the rationals, is the sum of
new_cases over the filtered same-location window rows. -/
lemma windowCaseSum_eq_filter (t : List MidRow) (r : MidRow) :
    ((windowCaseSum t r : Int) : Rat)
      = ((t.filter (fun x =>
            decide (x.full_loc_name = r.full_loc_name ∧ r.date - 7 < x.date ∧ x.date ≤ r.date))).map
          (fun x => (x.new_cases : Rat))).sum := by
  unfold windowCaseSum
  rw [sum_ite_eq_sum_filter t
        (fun x => x.full_loc_name = r.full_loc_name ∧ r.date - 7 < x.date ∧ x.date ≤ r.date)
        (fun x => x.new_cases)]
  rw [cast_sum_map]

/-- The deaths analogue of windowCaseSum_eq_filter. -/
lemma windowDeathSum_eq_filter (t : List MidRow) (r : MidRow) :
    ((windowDeathSum t r : Int) : Rat)
      = ((t.filter (fun x =>
            decide (x.full_loc_name = r.full_loc_name ∧ r.date - 7 < x.date ∧ x.date ≤ r.date))).map
          (fun x => (x.new_deaths : Rat))).sum := by
  unfold windowDeathSum
  rw [sum_ite_eq_sum_filter t
        (fun x => x.full_loc_name = r.full_loc_name ∧ r.date - 7 < x.date ∧ x.date ≤ r.date)
        (fun x => x.new_deaths)]
  rw [cast_sum_map]

/-- Membership in dedupFirst: an element occurs in the result exactly when
it occurs in the input and is not among the already seen elements. -/
lemma mem_dedupFirst {c : String} : ∀ (seen l : List String),
    c ∈ dedupFirst seen l ↔ (c ∈ l ∧ c ∉ seen) := by
  intro seen l
  induction l generalizing seen with
  | nil => simp [dedupFirst]
  | cons x xs ih =>
    unfold dedupFirst
    by_cases hx : x ∈ seen
    · rw [if_pos hx, ih]
      by_cases hcx : c = x
      · subst hcx; simp [hx]
      · simp [hcx]
    · rw [if_neg hx]
      by_cases hcx : c = x
      · subst hcx; simp [hx]
      · simp [hcx, ih]

/-- resolveFips can only fail with missingFips. -/
lemma resolveFips_error_eq {e : PolicyError} :
    ∀ {l : List PolicyMidRow}, resolveFips l = .error e → e = .missingFips := by
  intro l
  induction l with
  | nil => intro h; simp [resolveFips] at h
  | cons r rs ih =>
    intro h
    unfold resolveFips at h
    cases hf : r.fips_code with
    | none =>
      rw [hf] at h
      injection h with h2
      exact h2.symm
    | some f =>
      rw [hf] at h
      cases hrs : resolveFips rs with
      | error e2 =>
        rw [hrs] at h
        injection h with h2
        exact ih (h2 ▸ hrs)
      | ok rest =>
        rw [hrs] at h
        exact absurd h (by simp)

/-- parseDates can only fail with badDateFormat. -/
lemma parseDates_error_eq {e : PolicyError} :
    ∀ {l : List PolicyFipsRow}, parseDates l = .error e → e = .badDateFormat := by
  intro l
  induction l with
  | nil => intro h; simp [parseDates] at h
  | cons r rs ih =>
    intro h
    unfold parseDates at h
    cases hf : parsePolicyDate (repairDate r.date) with
    | none =>
      rw [hf] at h
      injection h with h2
      exact h2.symm
    | some d =>
      rw [hf] at h
      cases hrs : parseDates rs with
      | error e2 =>
        rw [hrs] at h
        injection h with h2
        exact ih (h2 ▸ hrs)
      | ok rest =>
        rw [hrs] at h
        exact absurd h (by simp)

/-- policyStage2 never raises the geography integrity error. -/
lemma policyStage2_no_integrity (t1 : List PolicyMidRow) (ts : List CleanCovidRow)
    (l : List String) : policyStage2 t1 ts ≠ .error (.dataIntegrityError l) := by
  unfold policyStage2
  split
  next e heq =>
    have he := resolveFips_error_eq heq
    subst he
    simp
  next t2 heq =>
    split
    next e2 heq2 =>
      have he := parseDates_error_eq heq2
      subst he
      simp
    next t3 heq2 =>
      split <;> simp

end HelperLemmas

/-- C1: in clean_covid_data, for every row of the table entering the
recomputation loops whose 7 day rolling average (new_cases_7day or
new_deaths_7day) is null and whose date is on or after the seed cutoff
2020-01-30, the recomputed value written to the output row equals the sum
of new_cases (respectively new_deaths) over all rows with the same
full_loc_name and date in the inclusive-exclusive window
(date - 7 days, date], divided by 7; the window rows are exactly the
same-location rows, so rows of other locations never contribute. -/
theorem c1_rolling_average_recompute (raw : List RawCovidRow) (r : MidRow)
    (_hmem : r ∈ seedMasked raw) (_hdate : seedCutoff ≤ r.date) :
    (r.new_cases_7day = none →
      (finalizeRow (seedMasked raw) r).new_cases_7day = claimCaseAvg (seedMasked raw) r)
    ∧ (r.new_deaths_7day = none →
      (finalizeRow (seedMasked raw) r).new_deaths_7day = claimDeathAvg (seedMasked raw) r) := by
  constructor
  · intro h
    show fillCase (seedMasked raw) r = claimCaseAvg (seedMasked raw) r
    unfold fillCase claimCaseAvg
    rw [h, windowCaseSum_eq_filter]
  · intro h
    show fillDeath (seedMasked raw) r = claimDeathAvg (seedMasked raw) r
    unfold fillDeath claimDeathAvg
    rw [h, windowDeathSum_eq_filter]

/-- Witness for C1 at the synthetic table rawC1: the null averages of the
day 18353 row are recomputed as the windowed means. -/
theorem c1_rolling_average_recompute_witness :
    (finalizeRow (seedMasked rawC1) rowC1).new_cases_7day = claimCaseAvg (seedMasked rawC1) rowC1
    ∧ (finalizeRow (seedMasked rawC1) rowC1).new_deaths_7day
        = claimDeathAvg (seedMasked rawC1) rowC1 := by
  have h := c1_rolling_average_recompute rawC1 rowC1 (by decide) (by decide)
  exact ⟨h.1 rfl, h.2 rfl⟩

/-- C4: in clean_covid_data, a row of the working table dated strictly
before 2020-01-30 has its null 7 day averages set to some 0 by the seed
mask, keeps non-null averages unchanged, and the recomputation step never
applies the windowed recompute to it: whatever table the recompute runs
over, the output value is the masked stored value (0 for a null average,
the stored average otherwise). -/
theorem c4_seed_period_zero_fill (raw : List RawCovidRow) (r : MidRow)
    (_hmem : r ∈ midTable raw) (hdate : r.date < seedCutoff) :
    (maskSeed r).new_cases_7day = some (r.new_cases_7day.getD 0)
    ∧ (maskSeed r).new_deaths_7day = some (r.new_deaths_7day.getD 0)
    ∧ ∀ t : List MidRow,
        (finalizeRow t (maskSeed r)).new_cases_7day = r.new_cases_7day.getD 0
        ∧ (finalizeRow t (maskSeed r)).new_deaths_7day = r.new_deaths_7day.getD 0 := by
  refine ⟨?_, ?_, fun t => ⟨?_, ?_⟩⟩ <;>
    simp [maskSeed, if_pos hdate, finalizeRow, fillCase, fillDeath]

/-- Witness for C4 at the synthetic table rawC4: the pre-cutoff row has
its null cases average zero filled and its stored deaths average kept,
with no windowed recompute applied. -/
theorem c4_seed_period_zero_fill_witness :
    (maskSeed rowC4).new_cases_7day = some 0
    ∧ (maskSeed rowC4).new_deaths_7day = some 2
    ∧ (finalizeRow (seedMasked rawC4) (maskSeed rowC4)).new_cases_7day = 0
    ∧ (finalizeRow (seedMasked rawC4) (maskSeed rowC4)).new_deaths_7day = 2 := by
  have h := c4_seed_period_zero_fill rawC4 rowC4 (by decide) (by decide)
  exact ⟨h.1, h.2.1, (h.2.2 (seedMasked rawC4)).1, (h.2.2 (seedMasked rawC4)).2⟩

/-- Key pair of a working row. -/
def midKey (r : MidRow) : Int × Int := (r.fips_code, r.date)

/-- Mapping a composition equals mapping a pointwise-equal function. -/
lemma map_comp_eq {A B C : Type} (f : A → B) (g : B → C) (k : A → C)
    (h : ∀ x, g (f x) = k x) (l : List A) : (l.map f).map g = l.map k := by
  induction l with
  | nil => rfl
  | cons a l ih => simp [h, ih]

/-- Filtering a mapped list is mapping the filtered list. -/
lemma filter_map_comm {A B : Type} (f : A → B) (p : B → Bool) (l : List A) :
    (l.map f).filter p = (l.filter (fun x => p (f x))).map f := by
  induction l with
  | nil => rfl
  | cons a l ih => by_cases h : p (f a) <;> simp [h, ih]

/-- The cleaned key list is a sublist of the raw key list: the row-level
steps of clean_covid_data preserve the (fips_code, date) pair and the
table-level steps only filter rows. -/
lemma clean_keys_sublist (raw : List RawCovidRow) :
    List.Sublist ((clean_covid_data raw).map cleanKey) (raw.map rawKey) := by
  have h1 : (clean_covid_data raw).map cleanKey = (seedMasked raw).map midKey :=
    map_comp_eq (finalizeRow (seedMasked raw)) cleanKey midKey (fun r => rfl) _
  have h2 : (seedMasked raw).map midKey = (midTable raw).map midKey :=
    map_comp_eq maskSeed midKey midKey
      (fun r => by unfold maskSeed midKey; split <;> rfl) _
  have h3 : (midTable raw).map midKey
      = (((((raw.filter (fun r => decide (r.date < maxDateCovid))).filter
          (fun r => decide (r.location_type = "county"))).map toMid).filter
          (fun r => decide (¬(r.state = "Puerto Rico" ∨ r.state = "District of Columbia")))).map
        midKey) :=
    map_comp_eq popOverrideRow midKey midKey
      (fun r => by unfold popOverrideRow midKey; split <;> [rfl; split <;> rfl]) _
  rw [h1, h2, h3, filter_map_comm]
  rw [map_comp_eq toMid midKey rawKey (fun r => rfl)]
  exact (((List.filter_sublist _).trans ((List.filter_sublist _).trans
    (List.filter_sublist _)))).map rawKey

/-- C5 counterexample: clean_covid_data performs no deduplication, so a
raw input whose two rows coincide yields a cleaned table in which two
distinct rows share the (fips_code, date) pair, contradicting the claimed
unconditional uniqueness. -/
theorem c5_unique_pairs_counterexample :
    (clean_covid_data rawDupC5).map cleanKey = [(2063, 18300), (2063, 18300)]
    ∧ ¬ ((clean_covid_data rawDupC5).map cleanKey).Pairwise (fun a b => a ≠ b) := by
  constructor
  · rfl
  · intro h
    rw [show (clean_covid_data rawDupC5).map cleanKey = [(2063, 18300), (2063, 18300)] from rfl]
      at h
    exact (List.pairwise_cons.mp h).1 _ (by simp) rfl

/-- C5 amended: the cleaned table has pairwise distinct (fips_code, date)
pairs whenever the raw input rows already have pairwise distinct
(fips_code, date) pairs; cleaning only filters rows and rewrites non-key
columns, so it preserves key uniqueness but cannot create it. -/
theorem c5_unique_pairs_amended (raw : List RawCovidRow)
    (h : (raw.map rawKey).Pairwise (fun a b => a ≠ b)) :
    ((clean_covid_data raw).map cleanKey).Pairwise (fun a b => a ≠ b) :=
  h.sublist (clean_keys_sublist raw)

/-- Witness for the amended C5 at the synthetic table rawC1, whose two raw
rows have distinct dates. -/
theorem c5_unique_pairs_amended_witness :
    ((clean_covid_data rawC1).map cleanKey).Pairwise (fun a b => a ≠ b) :=
  c5_unique_pairs_amended rawC1 (by decide)

/-- C6: the cleaning pipelines are deterministic functions of their raw
input, and running a pipeline twice produces identical cleaned output:
with the raw table given, a second run (in the cache state left by the
first) returns the same table; with df not given, a second run reads back
the cache written by the first run and returns the same table.  Stated
for clean_covid_data_cached and clean_policy_data_cached. -/
theorem c6_idempotent_cleaning :
    (∀ (rawSource d : List RawCovidRow) (cache : Option (List CleanCovidRow)) (fr : Bool),
      (clean_covid_data_cached rawSource (some d)
          (clean_covid_data_cached rawSource (some d) cache fr).2 fr).1
        = (clean_covid_data_cached rawSource (some d) cache fr).1)
    ∧ (∀ (rawSource : List RawCovidRow) (fr : Bool),
      (clean_covid_data_cached rawSource none
          (clean_covid_data_cached rawSource none none fr).2 false).1
        = (clean_covid_data_cached rawSource none none fr).1)
    ∧ (∀ (rawSource d : List RawPolicyRow) (ts : List CleanCovidRow)
        (cache : Option (List PolicyRow)) (fr : Bool),
      (clean_policy_data_cached rawSource ts (some d)
          (clean_policy_data_cached rawSource ts (some d) cache fr).2 fr).1
        = (clean_policy_data_cached rawSource ts (some d) cache fr).1)
    ∧ (∀ (rawSource : List RawPolicyRow) (ts : List CleanCovidRow) (fr : Bool),
      (clean_policy_data_cached rawSource ts none
          (clean_policy_data_cached rawSource ts none none fr).2 false).1
        = (clean_policy_data_cached rawSource ts none none fr).1) := by
  refine ⟨fun rawSource d cache fr => rfl, fun rawSource fr => rfl, ?_, ?_⟩
  · intro rawSource d ts cache fr
    cases h : clean_policy_data d ts <;> simp [clean_policy_data_cached, h]
  · intro rawSource ts fr
    cases h : clean_policy_data rawSource ts <;> simp [clean_policy_data_cached, h]

/-- C10: when the raw table df is given, the cleaned-output cache is never
consulted: for every cache state and every value of the force_reclean
flag, the pipelines run the full cleaning computation on the given df,
and the result does not depend on the cache. -/
theorem c10_cache_bypass_when_df_given :
    (∀ (rawSource d : List RawCovidRow) (cache : Option (List CleanCovidRow)) (fr : Bool),
      clean_covid_data_cached rawSource (some d) cache fr
        = (clean_covid_data d, some (clean_covid_data d)))
    ∧ (∀ (rawSource d : List RawPolicyRow) (ts : List CleanCovidRow)
        (cache : Option (List PolicyRow)) (fr : Bool),
      (clean_policy_data_cached rawSource ts (some d) cache fr).1 = clean_policy_data d ts) := by
  refine ⟨fun rawSource d cache fr => rfl, ?_⟩
  intro rawSource d ts cache fr
  cases h : clean_policy_data d ts <;> simp [clean_policy_data_cached, h]

/-- The cleaned policy row produced from rawPolicyC2 against tsC. -/
def policyOutC2 : PolicyRow :=
  { state := "Florida", county := "orange", fips_code := 12095,
    policy_level := "county", date := 18353, policy_type := "mask mandate",
    start_stop := "start" }

/-- Membership in the geography mismatch list: exactly the non-statewide
normalized county values of the policy table that are absent from the
county column of the case table. -/
lemma mem_policyMismatches (t : List PolicyMidRow) (ts : List CleanCovidRow) (c : String) :
    c ∈ policyMismatches t ts ↔
      (c ≠ "statewide" ∧ c ∈ t.map PolicyMidRow.county
        ∧ c ∉ ts.map CleanCovidRow.county) := by
  unfold policyMismatches
  simp only [List.mem_filter, mem_dedupFirst, List.not_mem_nil, not_false_iff, and_true,
    decide_eq_true_eq]
  tauto

/-- C3: if any non-statewide normalized county value of the policy table
is missing from the case table vocabulary, clean_policy_data stops with
the dataIntegrityError carrying the mismatch list, whose members are
exactly the unmatched county names (the full set, not only the first);
with no mismatch the integrity error is never raised. -/
theorem c3_integrity_failure_reporting (raw : List RawPolicyRow) (ts : List CleanCovidRow) :
    (policyMismatches (policyStage1 raw) ts ≠ [] →
      clean_policy_data raw ts
        = .error (.dataIntegrityError (policyMismatches (policyStage1 raw) ts)))
    ∧ (∀ c, c ∈ policyMismatches (policyStage1 raw) ts ↔
        (c ≠ "statewide" ∧ c ∈ (policyStage1 raw).map PolicyMidRow.county
          ∧ c ∉ ts.map CleanCovidRow.county))
    ∧ (policyMismatches (policyStage1 raw) ts = [] →
      ∀ l, clean_policy_data raw ts ≠ .error (.dataIntegrityError l)) := by
  refine ⟨?_, fun c => mem_policyMismatches _ _ c, ?_⟩
  · intro hne
    unfold clean_policy_data
    rw [if_neg hne]
  · intro hempty l
    unfold clean_policy_data
    rw [if_pos hempty]
    exact policyStage2_no_integrity _ _ l

/-- Witness for C3: the policy table whose county foo is unmatched makes
cleaning fail with the error naming foo, and the matched table rawPolicyC2
raises no integrity error. -/
theorem c3_integrity_failure_reporting_witness :
    clean_policy_data rawPolicyC3 tsC = .error (.dataIntegrityError ["foo"])
    ∧ ∀ l, clean_policy_data rawPolicyC2 tsC ≠ .error (.dataIntegrityError l) := by
  constructor
  · have h := (c3_integrity_failure_reporting rawPolicyC3 tsC).1 (by decide)
    have hm : policyMismatches (policyStage1 rawPolicyC3) tsC = ["foo"] := by decide
    rw [hm] at h
    exact h
  · exact (c3_integrity_failure_reporting rawPolicyC2 tsC).2.2 (by decide)

/-- C2 counterexample: reconciliation in clean_policy_data is keyed on the
bare county column of the case table, not on full_location_name: the
Florida policy row for the county orange passes cleaning against a case
table whose only location is orange, California, although the full
location name orange, Florida occurs nowhere in the full_loc_name
vocabulary. -/
theorem c2_full_loc_vocab_counterexample :
    clean_policy_data rawPolicyC2 tsC = .ok [policyOutC2]
    ∧ "orange, Florida" ∉ tsC.map CleanCovidRow.full_loc_name
    ∧ (policyStage1 rawPolicyC2).map PolicyMidRow.county = ["orange"]
    ∧ (policyStage1 rawPolicyC2).map PolicyMidRow.state = ["Florida"]
    ∧ "orange" ∈ tsC.map CleanCovidRow.county := by
  exact ⟨by decide, by decide, by decide, by decide, by decide⟩

/-- C2 amended: a policy table passes geography reconciliation (no
dataIntegrityError) exactly when every distinct non-statewide normalized
county value occurs among the county values of the cleaned case table
(the bare county vocabulary, not the county-comma-state strings). -/
theorem c2_county_vocab_amended (raw : List RawPolicyRow) (ts : List CleanCovidRow) :
    (∀ l, clean_policy_data raw ts ≠ .error (.dataIntegrityError l))
    ↔ (∀ c ∈ (policyStage1 raw).map PolicyMidRow.county,
        c ≠ "statewide" → c ∈ ts.map CleanCovidRow.county) := by
  constructor
  · intro hno c hc hcs
    by_contra hnot
    have hmem : c ∈ policyMismatches (policyStage1 raw) ts :=
      (mem_policyMismatches _ _ c).mpr ⟨hcs, hc, hnot⟩
    have hne : policyMismatches (policyStage1 raw) ts ≠ [] := by
      intro h0
      rw [h0] at hmem
      exact (List.not_mem_nil c) hmem
    have hrun := hno (policyMismatches (policyStage1 raw) ts)
    unfold clean_policy_data at hrun
    rw [if_neg hne] at hrun
    exact hrun rfl
  · intro hall l
    have hempty : policyMismatches (policyStage1 raw) ts = [] := by
      by_contra hne
      obtain ⟨c, hc⟩ := List.exists_mem_of_ne_nil _ hne
      have hmem := (mem_policyMismatches _ _ c).mp hc
      exact hmem.2.2 (hall c hmem.2.1 hmem.1)
    unfold clean_policy_data
    rw [if_pos hempty]
    exact policyStage2_no_integrity _ _ l

/-- Witness for the amended C2 at the matched table rawPolicyC2. -/
theorem c2_county_vocab_amended_witness :
    ∀ l, clean_policy_data rawPolicyC2 tsC ≠ .error (.dataIntegrityError l) :=
  (c2_county_vocab_amended rawPolicyC2 tsC).mpr (by decide)

/-- C7: a raw policy date string whose year segment is the mis-encoding
0020 is repaired by rewriting that segment to 2020 before parsing; in
particular the string 0020-04-01 parses to the calendar date 2020-04-01
after repair, and every row of a successful clean_policy_data run has its
date inside the cleaned case table date range. -/
theorem c7_date_repair_and_range :
    (∀ rest : String, repairDate ("0020" ++ rest) = "2020" ++ rest)
    ∧ parsePolicyDate (repairDate "0020-04-01") = some (toDayNumber 2020 4 1)
    ∧ (∀ (raw : List RawPolicyRow) (ts : List CleanCovidRow) (out : List PolicyRow),
        clean_policy_data raw ts = .ok out →
        ∀ r ∈ out, ∃ lo hi,
          (ts.map CleanCovidRow.date).min? = some lo
          ∧ (ts.map CleanCovidRow.date).max? = some hi
          ∧ lo ≤ r.date ∧ r.date ≤ hi) := by
  refine ⟨?_, by decide, ?_⟩
  · intro rest
    unfold repairDate
    have hdata : ("0020" ++ rest).data = "0020".data ++ rest.data := by
      cases rest
      rfl
    rw [hdata, containsSub_of_prefix, if_pos rfl]
    rw [show (4 : Nat) = "0020".data.length from rfl, List.drop_left]
    cases rest
    rfl
  · intro raw ts out hok r hr
    unfold clean_policy_data at hok
    by_cases hms : policyMismatches (policyStage1 raw) ts = []
    · rw [if_pos hms] at hok
      unfold policyStage2 at hok
      split at hok
      · exact absurd hok (by simp)
      · split at hok
        · exact absurd hok (by simp)
        next t3 heq3 =>
          split at hok
          next lo hi heqmin heqmax =>
            injection hok with hout
            subst hout
            obtain ⟨hr5, hphase⟩ := List.mem_filter.mp hr
            obtain ⟨r4, hr4, hmapr⟩ := List.mem_map.mp hr5
            obtain ⟨hr3, hrange⟩ := List.mem_filter.mp hr4
            have hdate : r.date = r4.date := by rw [← hmapr]
            have hcond := of_decide_eq_true hrange
            push_neg at hcond
            exact ⟨lo, hi, heqmin, heqmax, by omega, by omega⟩
          next h2 =>
            exact absurd hok (by simp)
    · rw [if_neg hms] at hok
      exact absurd hok (by simp)

/-- Witness for C7: the repair rewrite applied to the concrete suffix, and
the range property instantiated on the concrete run of rawPolicyC2. -/
theorem c7_date_repair_and_range_witness :
    repairDate ("0020" ++ "-04-01") = "2020" ++ "-04-01"
    ∧ ∃ lo hi, (tsC.map CleanCovidRow.date).min? = some lo
        ∧ (tsC.map CleanCovidRow.date).max? = some hi
        ∧ lo ≤ policyOutC2.date ∧ policyOutC2.date ≤ hi := by
  constructor
  · exact c7_date_repair_and_range.1 "-04-01"
  · exact c7_date_repair_and_range.2.2 rawPolicyC2 tsC [policyOutC2] (by decide) policyOutC2
      (by decide)

/-- C8 counterexample: the county suffix regexes of clean_policy_data are
applied in sequence, so a single normalization pass can strip more than
one trailing suffix: Foo Municipality County normalizes to foo, not to
the single-strip result foo municipality the claim predicts. -/
theorem c8_suffix_strip_counterexample :
    normalizeCounty "Foo Municipality County" = "foo"
    ∧ normalizeCounty "Foo Municipality County" ≠ "foo municipality" := by
  exact ⟨by decide, by decide⟩

/-- C8 amended: county normalization lowercases and then strips the
suffixes in the fixed order county, municipality, city, borough, each at
most once from the end of the string; hence the three spec examples hold,
a string ending in none of the suffixes is only lowercased, and exactly
one suffix is stripped when no pattern later in the sequence matches the
remainder (nested suffixes as in the counterexample lose several). -/
theorem c8_suffix_strip_amended :
    (normalizeCounty "Orange County" = "orange")
    ∧ (normalizeCounty "Juneau Borough" = "juneau")
    ∧ (normalizeCounty "Honolulu city" = "honolulu")
    ∧ (∀ s : String,
        strEndsWith (strToLower s) " county" = false →
        strEndsWith (strToLower s) " municipality" = false →
        strEndsWith (strToLower s) " city" = false →
        strEndsWith (strToLower s) " borough" = false →
        normalizeCounty s = strToLower s)
    ∧ (∀ s : String,
        strEndsWith (strToLower s) " county" = true →
        strEndsWith (strDropRight (strToLower s) 7) " municipality" = false →
        strEndsWith (strDropRight (strToLower s) 7) " city" = false →
        strEndsWith (strDropRight (strToLower s) 7) " borough" = false →
        normalizeCounty s = strDropRight (strToLower s) 7)
    ∧ (∀ s : String,
        strEndsWith (strToLower s) " county" = false →
        strEndsWith (strToLower s) " municipality" = true →
        strEndsWith (strDropRight (strToLower s) 13) " city" = false →
        strEndsWith (strDropRight (strToLower s) 13) " borough" = false →
        normalizeCounty s = strDropRight (strToLower s) 13)
    ∧ (∀ s : String,
        strEndsWith (strToLower s) " county" = false →
        strEndsWith (strToLower s) " municipality" = false →
        strEndsWith (strToLower s) " city" = true →
        strEndsWith (strDropRight (strToLower s) 5) " borough" = false →
        normalizeCounty s = strDropRight (strToLower s) 5)
    ∧ (∀ s : String,
        strEndsWith (strToLower s) " county" = false →
        strEndsWith (strToLower s) " municipality" = false →
        strEndsWith (strToLower s) " city" = false →
        strEndsWith (strToLower s) " borough" = true →
        normalizeCounty s = strDropRight (strToLower s) 8) := by
  refine ⟨by decide, by decide, by decide, ?_, ?_, ?_, ?_, ?_⟩ <;>
    intro s h1 h2 h3 h4 <;>
    simp [normalizeCounty, stripEnd, h1, h2, h3, h4,
      show (" county").length = 7 from rfl, show (" municipality").length = 13 from rfl,
      show (" city").length = 5 from rfl, show (" borough").length = 8 from rfl]

/-- Witness for the amended C8: one concrete instance of each
hypothesis-bearing conjunct. -/
theorem c8_suffix_strip_amended_witness :
    normalizeCounty "Springfield" = "springfield"
    ∧ normalizeCounty "Kern County" = "kern"
    ∧ normalizeCounty "Anchorage Municipality" = "anchorage"
    ∧ normalizeCounty "Carson city" = "carson"
    ∧ normalizeCounty "North Slope Borough" = "north slope" := by
  refine ⟨?_, ?_, ?_, ?_, ?_⟩
  · exact c8_suffix_strip_amended.2.2.2.1 "Springfield" (by decide) (by decide) (by decide)
      (by decide)
  · exact c8_suffix_strip_amended.2.2.2.2.1 "Kern County" (by decide) (by decide) (by decide)
      (by decide)
  · exact c8_suffix_strip_amended.2.2.2.2.2.1 "Anchorage Municipality" (by decide) (by decide)
      (by decide) (by decide)
  · exact c8_suffix_strip_amended.2.2.2.2.2.2.1 "Carson city" (by decide) (by decide) (by decide)
      (by decide)
  · exact c8_suffix_strip_amended.2.2.2.2.2.2.2 "North Slope Borough" (by decide) (by decide)
      (by decide) (by decide)

/-- C9: the abbreviation-to-state-name replace of clean_policy_data acts
on every column of the policy table, not only the state column: after the
state filter, each kept row has every string cell (state_id, county,
policy_level, date, policy_type, start_stop) passed through replaceCell,
which rewrites a cell equal to a state postal abbreviation to the full
state name and leaves every other cell unchanged (the numeric fips cell
is untouched). -/
theorem c9_replace_hits_every_column :
    (∀ raw : List RawPolicyRow,
      policyStage1 raw =
        (raw.filter (fun r => decide (r.state_id ∈ stateAbbrs))).map (fun r =>
          { state := replaceCell r.state_id
            county := normalizeCounty ((r.county.map replaceCell).getD "statewide")
            fips_code := r.fips_code
            policy_level := replaceCell r.policy_level
            date := replaceCell r.date
            policy_type := replaceCell r.policy_type
            start_stop := replaceCell r.start_stop }))
    ∧ (∀ e ∈ usStateTable, replaceCell e.abbr = e.name)
    ∧ (∀ s : String, s ∉ stateAbbrs → replaceCell s = s) := by
  refine ⟨?_, by decide, ?_⟩
  · intro raw
    unfold policyStage1
    rw [filter_map_comm, List.map_map, List.map_map]
    rfl
  · intro s hs
    unfold replaceCell
    cases hfind : usStateTable.find? (fun e => decide (e.abbr = s)) with
    | none => rfl
    | some e =>
      exfalso
      have hp := List.find?_some hfind
      have hmem := List.mem_of_find?_eq_some hfind
      have habbr : e.abbr = s := of_decide_eq_true hp
      exact hs (List.mem_map.mpr ⟨e, hmem, habbr⟩)

/-- Witness for C9: the flattening applied to the concrete table
rawPolicyC2, a postal abbreviation cell rewritten to the state name, and
a non-abbreviation cell left unchanged. -/
theorem c9_replace_hits_every_column_witness :
    policyStage1 rawPolicyC2 =
      (rawPolicyC2.filter (fun r => decide (r.state_id ∈ stateAbbrs))).map (fun r =>
        { state := replaceCell r.state_id
          county := normalizeCounty ((r.county.map replaceCell).getD "statewide")
          fips_code := r.fips_code
          policy_level := replaceCell r.policy_level
          date := replaceCell r.date
          policy_type := replaceCell r.policy_type
          start_stop := replaceCell r.start_stop })
    ∧ replaceCell "CA" = "California"
    ∧ replaceCell "Mask Mandate" = "Mask Mandate" := by
  refine ⟨c9_replace_hits_every_column.1 rawPolicyC2, ?_, ?_⟩
  · exact c9_replace_hits_every_column.2.1 ⟨"CA", "California", 6⟩ (by decide)
  · exact c9_replace_hits_every_column.2.2 "Mask Mandate" (by decide)
